import Mathlib

/-!
Verification of the AuditLens AI invoice-audit system (Invoice-OCR-AI-ML).

The repository ships the React frontend (`frontend/src/App.jsx`,
`frontend/src/components/RiskScorecard.jsx`, and a newer revision of the
App component) together with documentation of the FastAPI backend.  The
frontend components are embedded directly from their JSX sources.  The
backend services (`audit_service.py`, `statutory_service.py`,
`forensic_service.py`, `history_service.py`) are not part of the shipped
sources; the engine definitions below are modelled from the specification
of the Audit Orchestration & Risk-Scoring Engine, and each such definition
is marked `Modelled from the spec:` in its doc comment.
-/

namespace AuditLens

/-- Status of one control result.  Modelled from the spec: the `CheckStatus`
enum of the backend (`pass`, `warning`, `fail`, `data_missing`) is not under
the shipped sources. -/
inductive CheckStatus where
  | pass
  | warning
  | fail
  | dataMissing
deriving DecidableEq, Repr

/-- The five fixed control categories.  Modelled from the spec: the backend
category enum is not under the shipped sources; the five names are fixed by
the spec and by the `CATEGORIES` constant of `RiskScorecard.jsx`. -/
inductive Category where
  | metadataImage
  | statutory
  | vendorHistory
  | duplicateDetection
  | advancedAnalytics
deriving DecidableEq, Repr

/-- Display name of a category, as serialized on the wire and matched by the
frontend `CATEGORIES` list. -/
def Category.displayName : Category → String
  | .metadataImage => "Metadata & Image Integrity"
  | .statutory => "Statutory Validation"
  | .vendorHistory => "Vendor History Analysis"
  | .duplicateDetection => "Duplicate Detection"
  | .advancedAnalytics => "Advanced Analytics"

/-- The `CATEGORIES` constant of `RiskScorecard.jsx` (lines 3-9). -/
def CATEGORIES : List String :=
  ["Metadata & Image Integrity",
   "Statutory Validation",
   "Vendor History Analysis",
   "Duplicate Detection",
   "Advanced Analytics"]

/-- Structured diagnostic payload of a control result.  Modelled from the
spec: the ELA check surfaces the two summary statistics, and the HSN/SAC
check surfaces expected vs declared rates. -/
inductive Details where
  | elaStats (meanDiff maxDiff : ℚ)
  | rateMismatch (expected declared : ℚ)
deriving DecidableEq, Repr

/-- One Control Result, as serialized in the `checks` list of the audit
response: `{check_id, category, check_name, status, alert?, details?}`. -/
structure ControlResult where
  check_id : String
  category : Category
  check_name : String
  status : CheckStatus
  alert : Option String
  details : Option Details
deriving DecidableEq, Repr

instance : Inhabited ControlResult :=
  ⟨⟨"", Category.metadataImage, "", CheckStatus.dataMissing, none, none⟩⟩

/-- Image-level signals available to the Forensic Analyzer once the raw
bytes decode as a raster image.  Modelled from the spec: `forensic_service.py`
is not under the shipped sources; re-decoding and recompression are
abstracted into the metadata flags and the two ELA statistics the spec says
are derived from the bytes. -/
structure ImageSignals where
  hasMetadata : Bool
  softwareTag : Bool
  elaMean : ℚ
  elaMax : ℚ
deriving DecidableEq, Repr

/-- The Evidence Bundle: raw document bytes (required), forensic signals when
the bytes decode as an image (`none` for non-image inputs), and the optional
declared fields.  Modelled from the spec: the backend request model is not
under the shipped sources. -/
structure EvidenceBundle where
  rawBytes : List Nat
  image : Option ImageSignals
  gstin : Option String
  hsnOrSac : Option String
  claimedTaxRate : Option ℚ
deriving DecidableEq, Repr

/-- The Audit Record returned by the orchestrator: clamped composite score,
ordered alerts, and the full ordered `checks` list. -/
structure AuditRecord where
  composite_risk_score : Nat
  alerts : List String
  checks : List ControlResult
deriving DecidableEq, Repr

/-! ### Identifier validators (spec §4.1) -/

/-- Base-36 value of an alphanumeric character: digits map to 0-9, uppercase
letters to 10-35. -/
def charVal36 (c : Char) : Nat :=
  if c.isDigit then c.toNat - '0'.toNat else 10 + (c.toNat - 'A'.toNat)

/-- The alphanumeric character with base-36 value `n`. -/
def char36 (n : Nat) : Char :=
  if n < 10 then Char.ofNat ('0'.toNat + n) else Char.ofNat ('A'.toNat + n - 10)

/-- One term of the GSTIN checksum: the character's base-36 value times the
alternating factor, folded as quotient plus remainder mod 36. -/
def gstinHash (i : Nat) (c : Char) : Nat :=
  let f := if i % 2 == 0 then 1 else 2
  let p := charVal36 c * f
  p / 36 + p % 36

/-- Modelled from the spec: the deterministic checksum function over the
first 14 GSTIN characters (`statutory_service.py` is not under the shipped
sources).  Standard GSTIN check digit: alternating 1/2 factors over base-36
character values, digit-folded, summed, and complemented mod 36. -/
def gstinChecksumChar (cs : List Char) : Char :=
  let total := (cs.enum.map (fun p => gstinHash p.1 p.2)).sum
  char36 ((36 - total % 36) % 36)

/-- Character-class test for the positional GSTIN grammar at position `i`:
2-digit state code, 10-character PAN segment (5 letters, 4 digits, 1 letter),
1-digit entity code, literal 'Z', alphanumeric checksum character. -/
def gstinCharOk (i : Nat) (c : Char) : Bool :=
  if i < 2 then c.isDigit
  else if i < 7 then c.isUpper
  else if i < 11 then c.isDigit
  else if i = 11 then c.isUpper
  else if i = 12 then c.isDigit
  else if i = 13 then c == 'Z'
  else c.isDigit || c.isUpper

/-- Modelled from the spec: `validate_gstin(s)` fails closed unless the
string is exactly 15 characters, matches the fixed positional grammar, and
the 15th character equals the deterministic checksum over the first 14.
Total over all strings; returns `false` (invalid) on every malformed input. -/
def validate_gstin (s : String) : Bool :=
  let cs := s.data
  if cs.length = 15 then
    (cs.enum.all fun p => gstinCharOk p.1 p.2) &&
      (cs.getLast? == some (gstinChecksumChar (cs.take 14)))
  else
    false

/-- Modelled from the spec: `validate_pan(s)` checks the fixed 10-character
grammar (5 letters, 4 digits, 1 letter); no checksum. -/
def validate_pan (s : String) : Bool :=
  let cs := s.data
  if cs.length = 10 then
    cs.enum.all fun p =>
      if p.1 < 5 then p.2.isUpper else if p.1 < 9 then p.2.isDigit else p.2.isUpper
  else
    false

/-! ### Reference Master and HSN/SAC validation (spec §4.1, §6) -/

/-- Modelled from the spec: the Reference Master mapping category codes to
expected tax rates (`statutory_service.py` holds a hardcoded 4-entry mock
master, not under the shipped sources; representative entries are used,
keyed by the documented example code "9983"). -/
def TAX_MASTER : List (String × ℚ) :=
  [("9983", 18), ("9954", 18), ("8471", 18), ("1006", 5)]

/-- `lookup(code) -> ExpectedRate | absent` over an association-list master. -/
def lookupRate (master : List (String × ℚ)) (code : String) : Option ℚ :=
  (master.find? (fun e => e.1 == code)).map (fun e => e.2)

/-- The concrete Reference Master lookup used by the HSN/SAC control. -/
def refLookup (code : String) : Option ℚ :=
  lookupRate TAX_MASTER code

/-- The status/alert/details triple produced by one evaluator; the
orchestrator combines it with the control's static descriptor. -/
structure Outcome where
  status : CheckStatus
  alert : Option String
  details : Option Details
deriving DecidableEq, Repr

/-- Outcome of a passing check. -/
def passOutcome : Outcome :=
  { status := CheckStatus.pass, alert := none, details := none }

/-- Outcome of a check whose required evidence is unavailable. -/
def missingOutcome : Outcome :=
  { status := CheckStatus.dataMissing, alert := none, details := none }

/-- Modelled from the spec: `validate_hsn_or_sac(code, declared_rate)` looks
up `code` in the Reference Master; absence of a reference entry is
evidentiary absence (`data_missing`), a present entry is compared with the
declared rate with tolerance 0, mismatch yields `fail` with expected vs
declared in the details, and an undeclared rate yields `data_missing`. -/
def validate_hsn_or_sac (lookup : String → Option ℚ) (code : String)
    (declaredRate : Option ℚ) : Outcome :=
  match lookup code with
  | none =>
      { status := CheckStatus.dataMissing,
        alert := some ("Data Missing: HSN/SAC code " ++ code ++ " not found in tax master"),
        details := none }
  | some expected =>
      match declaredRate with
      | none =>
          { status := CheckStatus.dataMissing,
            alert := some "Data Missing: claimed tax rate not provided",
            details := none }
      | some declared =>
          if declared = expected then passOutcome
          else
            { status := CheckStatus.fail,
              alert := some ("Claimed tax rate mismatch for HSN/SAC " ++ code),
              details := some (Details.rateMismatch expected declared) }

/-! ### Forensic Analyzer (spec §4.2) -/

/-- Modelled from the spec: the metadata check flags `warning` when embedded
metadata is entirely absent or a software-editor tag is present, `pass`
otherwise, and `data_missing` for non-image inputs. -/
def metadataCheck (b : EvidenceBundle) : Outcome :=
  match b.image with
  | none => missingOutcome
  | some sig =>
      if !sig.hasMetadata then
        { status := CheckStatus.warning,
          alert := some "Image metadata entirely absent (possible re-save)",
          details := none }
      else if sig.softwareTag then
        { status := CheckStatus.warning,
          alert := some "Editing-software tag present in image metadata",
          details := none }
      else passOutcome

/-- Modelled from the spec: the ELA tamper-likelihood check derives mean and
max per-pixel differences against a recompressed copy; mean > 12 or
max > 60 yields `warning`, otherwise `pass`; the two statistics are surfaced
in the details and non-image inputs yield `data_missing`. -/
def elaCheck (b : EvidenceBundle) : Outcome :=
  match b.image with
  | none => missingOutcome
  | some sig =>
      if 12 < sig.elaMean || 60 < sig.elaMax then
        { status := CheckStatus.warning,
          alert := some "Possible localized edit detected (ELA)",
          details := some (Details.elaStats sig.elaMean sig.elaMax) }
      else
        { status := CheckStatus.pass, alert := none,
          details := some (Details.elaStats sig.elaMean sig.elaMax) }

/-! ### Statutory control evaluators (spec §4.1, §4.3) -/

/-- Modelled from the spec: control 2.1 validates the declared GSTIN with
`validate_gstin`; an absent declaration is absent evidence. -/
def gstinCheck (b : EvidenceBundle) : Outcome :=
  match b.gstin with
  | none => missingOutcome
  | some s =>
      if validate_gstin s then passOutcome
      else
        { status := CheckStatus.fail,
          alert := some ("GSTIN " ++ s ++ " failed format/checksum validation"),
          details := none }

/-- Modelled from the spec: control 2.2 validates the 10-character PAN
segment embedded in the declared GSTIN with `validate_pan`. -/
def panCheck (b : EvidenceBundle) : Outcome :=
  match b.gstin with
  | none => missingOutcome
  | some s =>
      if validate_pan (String.mk ((s.data.drop 2).take 10)) then passOutcome
      else
        { status := CheckStatus.fail,
          alert := some "PAN segment of GSTIN failed format validation",
          details := none }

/-- Modelled from the spec: control 2.3 compares the declared HSN/SAC code
and claimed tax rate against the Reference Master. -/
def hsnCheck (b : EvidenceBundle) : Outcome :=
  match b.hsnOrSac with
  | none => missingOutcome
  | some code => validate_hsn_or_sac refLookup code b.claimedTaxRate

/-! ### Control Registry (spec §4.3) -/

/-- One Control Definition: static descriptor plus the evidence-requirement
predicate and the evaluator.  Modelled from the spec: the backend control
catalog of `audit_service.py` is not under the shipped sources.
History-dependent controls receive a read snapshot of the History Store. -/
structure Control where
  id : String
  category : Category
  name : String
  requires : EvidenceBundle → List AuditRecord → Bool
  evaluate : EvidenceBundle → List AuditRecord → Outcome

/-- A scaffolded control awaiting OCR/ERP/history/API integrations: its
required evidence is never available, so it always reports `data_missing`
under the Zero-Inference Rule (README: 21 of the 26 controls). -/
def scaffold (id : String) (cat : Category) (nm : String) : Control :=
  { id := id, category := cat, name := nm,
    requires := fun _ _ => false,
    evaluate := fun _ _ => missingOutcome }

/-- Modelled from the spec: the fixed ordered catalog of 26 Control
Definitions, ids `1.1`-`5.5`, partitioned into the 5 fixed categories
(4 + 7 + 5 + 5 + 5).  Implemented logic: 1.1, 1.2, 2.1, 2.2, 2.3; the
remaining 21 controls are Zero-Inference scaffolds. -/
def registry : List Control :=
  [{ id := "1.1", category := Category.metadataImage, name := "Image metadata consistency",
     requires := fun b _ => b.image.isSome, evaluate := fun b _ => metadataCheck b },
   { id := "1.2", category := Category.metadataImage, name := "Tamper likelihood (ELA)",
     requires := fun b _ => b.image.isSome, evaluate := fun b _ => elaCheck b },
   scaffold "1.3" Category.metadataImage "Image resolution consistency",
   scaffold "1.4" Category.metadataImage "Document layout integrity",
   { id := "2.1", category := Category.statutory, name := "GSTIN format and checksum",
     requires := fun b _ => b.gstin.isSome, evaluate := fun b _ => gstinCheck b },
   { id := "2.2", category := Category.statutory, name := "PAN segment validation",
     requires := fun b _ => b.gstin.isSome, evaluate := fun b _ => panCheck b },
   { id := "2.3", category := Category.statutory, name := "HSN/SAC tax-rate match",
     requires := fun b _ => b.hsnOrSac.isSome, evaluate := fun b _ => hsnCheck b },
   scaffold "2.4" Category.statutory "Invoice number format",
   scaffold "2.5" Category.statutory "Invoice date validity",
   scaffold "2.6" Category.statutory "Tax computation consistency",
   scaffold "2.7" Category.statutory "Place-of-supply consistency",
   scaffold "3.1" Category.vendorHistory "Vendor amount trend",
   scaffold "3.2" Category.vendorHistory "Vendor frequency trend",
   scaffold "3.3" Category.vendorHistory "Vendor risk history",
   scaffold "3.4" Category.vendorHistory "New vendor screening",
   scaffold "3.5" Category.vendorHistory "Vendor detail drift",
   scaffold "4.1" Category.duplicateDetection "Exact duplicate invoice",
   scaffold "4.2" Category.duplicateDetection "Near-duplicate amount window",
   scaffold "4.3" Category.duplicateDetection "Duplicate invoice number",
   scaffold "4.4" Category.duplicateDetection "Duplicate across vendors",
   scaffold "4.5" Category.duplicateDetection "Split invoice detection",
   scaffold "5.1" Category.advancedAnalytics "Benford digit distribution",
   scaffold "5.2" Category.advancedAnalytics "Round-amount anomaly",
   scaffold "5.3" Category.advancedAnalytics "Weekend/holiday posting",
   scaffold "5.4" Category.advancedAnalytics "Amount outlier detection",
   scaffold "5.5" Category.advancedAnalytics "Sequential pattern anomaly"]

/-- Assemble the Control Result for a control from its static descriptor and
an evaluator outcome. -/
def mkResult (c : Control) (o : Outcome) : ControlResult :=
  { check_id := c.id, category := c.category, check_name := c.name,
    status := o.status, alert := o.alert, details := o.details }

/-- Modelled from the spec: the orchestrator's per-control step — evaluate
the evidence-requirement predicate first and short-circuit to `data_missing`
without invoking the evaluator (Zero-Inference Rule), otherwise invoke the
evaluator. -/
def runControl (b : EvidenceBundle) (hist : List AuditRecord) (c : Control) :
    ControlResult :=
  if c.requires b hist then mkResult c (c.evaluate b hist)
  else mkResult c missingOutcome

/-! ### Composite Scorer (spec §4.4) -/

/-- Declarative scoring configuration: category → fail penalty, plus the
fixed baseline penalty for `data_missing`.  Modelled from the spec: weights
are data passed into the scorer, not hardcoded branches. -/
structure ScoreConfig where
  categoryPenalty : Category → Nat
  missingPenalty : Nat

/-- Modelled from the spec: the documented default weights — higher fail
penalties for Statutory Validation and Duplicate Detection than for
Advanced Analytics, and 3 points per `data_missing` control. -/
def defaultScoreConfig : ScoreConfig :=
  { categoryPenalty := fun cat =>
      match cat with
      | Category.statutory => 20
      | Category.duplicateDetection => 20
      | Category.metadataImage => 10
      | Category.vendorHistory => 10
      | Category.advancedAnalytics => 8,
    missingPenalty := 3 }

/-- Penalty contributed by one status in one category: `fail` the category
penalty, `warning` half of it, `pass` 0, `data_missing` the baseline. -/
def statusPenalty (cfg : ScoreConfig) (cat : Category) (st : CheckStatus) : Nat :=
  match st with
  | CheckStatus.pass => 0
  | CheckStatus.warning => cfg.categoryPenalty cat / 2
  | CheckStatus.fail => cfg.categoryPenalty cat
  | CheckStatus.dataMissing => cfg.missingPenalty

/-- The running (unclamped) risk total over a list of Control Results. -/
def rawRiskTotal (cfg : ScoreConfig) (rs : List ControlResult) : Nat :=
  (rs.map (fun r => statusPenalty cfg r.category r.status)).sum

/-- The composite risk score: the running total clamped to [0, 100]. -/
def compositeScore (cfg : ScoreConfig) (rs : List ControlResult) : Nat :=
  min (rawRiskTotal cfg rs) 100

/-- Alert contributed by one Control Result: non-`pass` results contribute
their alert message, a `data_missing` result falling back to the generic
"Data Missing: <control name>" message. -/
def resultAlert (r : ControlResult) : Option String :=
  match r.status with
  | CheckStatus.pass => none
  | CheckStatus.dataMissing => some (r.alert.getD ("Data Missing: " ++ r.check_name))
  | _ => r.alert

/-- The ordered alert list of an audit run, in registry order. -/
def auditAlerts (rs : List ControlResult) : List String :=
  rs.filterMap resultAlert

/-- Modelled from the spec: the Audit Orchestrator — iterate the fixed
registry over the Evidence Bundle and a History Store read snapshot,
collect the 26 Control Results in registry order, and aggregate the clamped
composite score and the alert list. -/
def audit (cfg : ScoreConfig) (b : EvidenceBundle) (hist : List AuditRecord) :
    AuditRecord :=
  let checks := registry.map (runControl b hist)
  { composite_risk_score := compositeScore cfg checks,
    alerts := auditAlerts checks,
    checks := checks }

/-! ### Frontend: RiskScorecard.jsx -/

/-- `riskClass` from `RiskScorecard.jsx` (lines 24-29): score ≥ 70 is high,
score ≥ 40 is medium, otherwise low. -/
def riskClass (score : Nat) : String :=
  if score ≥ 70 then "high"
  else if score ≥ 40 then "medium"
  else "low"

/-- `filteredChecks` from `RiskScorecard.jsx` (lines 36-38): the selected
category filters `result.checks` by the serialized category name, and
selecting "all" displays the whole list. -/
def filteredChecks (checks : List ControlResult) (filterCategory : String) :
    List ControlResult :=
  if filterCategory == "all" then checks
  else checks.filter (fun c => c.category.displayName == filterCategory)

/-! ### Frontend: App.jsx client state and the audit action -/

/-- The React state of the App component: selected file (name), the three
optional declared-field text inputs, and the loading/error/result state. -/
structure ClientState where
  file : Option String
  gstin : String
  hsn : String
  taxRate : String
  loading : Bool
  error : String
  result : Option AuditRecord

/-- The error message shown when the audit action runs with no file. -/
def noFileError : String := "Please upload a file before auditing."

/-- Multipart form construction of `frontend/src/App.jsx` `runAudit`
(lines 32-36): every declared field is appended unconditionally, so a blank
input is sent as a present empty-string form value. -/
def legacyFormData (file gstin hsn taxRate : String) : List (String × String) :=
  [("file", file), ("gstin", gstin), ("hsn_or_sac", hsn),
   ("claimed_tax_rate", taxRate)]

/-- JavaScript `String.prototype.trim`: strip leading and trailing
whitespace characters. -/
def jsTrim (s : String) : String :=
  String.mk
    (((s.data.dropWhile Char.isWhitespace).reverse.dropWhile
      Char.isWhitespace).reverse)

/-- Multipart form construction of the revised App component
(`src/unnamed/part_000` `runAudit`, lines 36-40): each declared field is
appended only when its trimmed value is non-empty (JS truthiness), so a
blank input is omitted from the request. -/
def currentFormData (file gstin hsn taxRate : String) : List (String × String) :=
  [("file", file)] ++
    (if jsTrim gstin == "" then [] else [("gstin", jsTrim gstin)]) ++
    (if jsTrim hsn == "" then [] else [("hsn_or_sac", jsTrim hsn)]) ++
    (if jsTrim taxRate == "" then [] else [("claimed_tax_rate", jsTrim taxRate)])

/-- `runAudit` of `frontend/src/App.jsx` up to the fetch: with no file it
sets the error and returns without a request; otherwise it sets loading,
clears the error (the displayed result is not cleared) and posts the form. -/
def runAuditLegacy (s : ClientState) :
    ClientState × Option (List (String × String)) :=
  match s.file with
  | none => ({ s with error := noFileError }, none)
  | some f =>
      ({ s with loading := true, error := "" },
       some (legacyFormData f s.gstin s.hsn s.taxRate))

/-- `runAudit` of the revised App component (`src/unnamed/part_000`) up to
the fetch: the same no-file guard, and on success it also clears the
previously displayed result before posting the trimmed form. -/
def runAuditCurrent (s : ClientState) :
    ClientState × Option (List (String × String)) :=
  match s.file with
  | none => ({ s with error := noFileError }, none)
  | some f =>
      ({ s with loading := true, error := "", result := none },
       some (currentFormData f s.gstin s.hsn s.taxRate))

/-! ### Concrete sample inputs and derived score function -/

/-- An Evidence Bundle with raw bytes only: no decodable image, no declared
fields. -/
def emptyBundle : EvidenceBundle :=
  { rawBytes := [], image := none, gstin := none, hsnOrSac := none,
    claimedTaxRate := none }

/-- An Evidence Bundle engineered so that the raw penalty total exceeds 100:
three statutory fails (invalid GSTIN, invalid PAN segment, tax-rate
mismatch), two forensic warnings (absent metadata, ELA mean 13), and 21
`data_missing` scaffolds. -/
def overBundle : EvidenceBundle :=
  { rawBytes := [1],
    image := some { hasMetadata := false, softwareTag := false,
                    elaMean := 13, elaMax := 10 },
    gstin := some "0000000000",
    hsnOrSac := some "9983",
    claimedTaxRate := some 5 }

/-- A bundle declaring only a GSTIN, as submitted for the GSTIN control. -/
def gstinBundle (s : String) : EvidenceBundle :=
  { rawBytes := [], image := none, gstin := some s, hsnOrSac := none,
    claimedTaxRate := none }

/-- The 26 registered control ids in registry order. -/
def CONTROL_IDS : List String :=
  ["1.1", "1.2", "1.3", "1.4",
   "2.1", "2.2", "2.3", "2.4", "2.5", "2.6", "2.7",
   "3.1", "3.2", "3.3", "3.4", "3.5",
   "4.1", "4.2", "4.3", "4.4", "4.5",
   "5.1", "5.2", "5.3", "5.4", "5.5"]

/-- The composite score as a function of the 26 statuses alone: each status
is paired with its control's registry category and penalized, then the sum
is clamped to [0, 100]. -/
def scoreFromStatuses (cfg : ScoreConfig) (sts : List CheckStatus) : Nat :=
  min (List.sum (List.zipWith (fun cat st => statusPenalty cfg cat st)
    (registry.map (fun c => c.category)) sts)) 100

/-- The checks list of a run on the empty bundle, used as a concrete
scorecard input. -/
def sampleChecks : List ControlResult :=
  (audit defaultScoreConfig emptyBundle []).checks

/-- A client state with a previously displayed result but no selected file. -/
def sampleNoFileState : ClientState :=
  { file := none, gstin := "27ABCDE1234F1Z0", hsn := "", taxRate := "",
    loading := false, error := "",
    result := some (audit defaultScoreConfig emptyBundle []) }

/-! ### Helper lemmas -/

/-- The orchestrator's checks list is the registry mapped through the
per-control step. -/
theorem audit_checks (cfg : ScoreConfig) (b : EvidenceBundle)
    (hist : List AuditRecord) :
    (audit cfg b hist).checks = registry.map (runControl b hist) := rfl

/-- The per-control step always reports the control's own id. -/
theorem runControl_check_id (b : EvidenceBundle) (hist : List AuditRecord)
    (c : Control) : (runControl b hist c).check_id = c.id := by
  unfold runControl
  split <;> rfl

/-- The per-control step always reports the control's own category. -/
theorem runControl_category (b : EvidenceBundle) (hist : List AuditRecord)
    (c : Control) : (runControl b hist c).category = c.category := by
  unfold runControl
  split <;> rfl

/-- The penalty sum over orchestrator-produced results equals the sum of the
statuses zipped with the controls' own categories. -/
theorem penalty_zip (cfg : ScoreConfig) (b : EvidenceBundle)
    (hist : List AuditRecord) (l : List Control) :
    ((l.map (runControl b hist)).map
        (fun r => statusPenalty cfg r.category r.status)).sum =
      List.sum (List.zipWith (fun cat st => statusPenalty cfg cat st)
        (l.map (fun c => c.category))
        ((l.map (runControl b hist)).map (fun r => r.status))) := by
  induction l with
  | nil => rfl
  | cons c t ih =>
      simp only [List.map_cons, List.zipWith_cons_cons, List.sum_cons, ih,
        runControl_category]

/-! ### Claim theorems -/

/-- C1 (Zero-Inference Rule): for every audit run and every registered
control whose evidence-requirement predicate rejects the Evidence Bundle,
the Control Result recorded at that control's registry position has status
exactly `data_missing`, and is never `pass`, `warning`, or `fail`. -/
theorem zero_inference_rule (cfg : ScoreConfig) (b : EvidenceBundle)
    (hist : List AuditRecord) (i : Nat) (hi : i < registry.length)
    (hreq : registry[i].requires b hist = false) :
    ∃ r : ControlResult, (audit cfg b hist).checks[i]? = some r ∧
      r.status = CheckStatus.dataMissing ∧ r.status ≠ CheckStatus.pass ∧
      r.status ≠ CheckStatus.warning ∧ r.status ≠ CheckStatus.fail := by
  have hr : runControl b hist registry[i] = mkResult registry[i] missingOutcome := by
    unfold runControl
    rw [hreq]
    simp
  refine ⟨runControl b hist registry[i], ?_, ?_, ?_, ?_, ?_⟩
  · rw [audit_checks, List.getElem?_map, List.getElem?_eq_getElem hi]
    rfl
  · rw [hr]; rfl
  · rw [hr]; simp [mkResult, missingOutcome]
  · rw [hr]; simp [mkResult, missingOutcome]
  · rw [hr]; simp [mkResult, missingOutcome]

/-- C1 witness: on a bundle with no decodable image, control 1.1's evidence
predicate rejects and its recorded result is `data_missing`. -/
theorem zero_inference_rule_witness :
    ∃ r : ControlResult,
      (audit defaultScoreConfig emptyBundle []).checks[0]? = some r ∧
      r.status = CheckStatus.dataMissing ∧ r.status ≠ CheckStatus.pass ∧
      r.status ≠ CheckStatus.warning ∧ r.status ≠ CheckStatus.fail :=
  zero_inference_rule defaultScoreConfig emptyBundle [] 0 (by decide) rfl

/-- C2: every audit run's checks list has exactly 26 entries, exactly one
per registered control id in fixed registry order, and the serialized
categories of those entries, deduplicated in order, are exactly the 5 fixed
category names. -/
theorem control_matrix_shape (cfg : ScoreConfig) (b : EvidenceBundle)
    (hist : List AuditRecord) :
    (audit cfg b hist).checks.length = 26 ∧
    (audit cfg b hist).checks.map (fun r => r.check_id) = CONTROL_IDS ∧
    CONTROL_IDS.Nodup ∧
    ((audit cfg b hist).checks.map
        (fun r => r.category.displayName)).dedup = CATEGORIES := by
  refine ⟨?_, ?_, by decide, ?_⟩
  · rw [audit_checks, List.length_map]
    rfl
  · rw [audit_checks, List.map_map]
    have h : registry.map ((fun r => r.check_id) ∘ runControl b hist) =
        registry.map (fun c => c.id) :=
      List.map_congr_left (fun c _ => runControl_check_id b hist c)
    rw [h]
    rfl
  · rw [audit_checks, List.map_map]
    have h : registry.map ((fun r => r.category.displayName) ∘ runControl b hist) =
        registry.map (fun c => c.category.displayName) :=
      List.map_congr_left (fun c _ => by
        show (runControl b hist c).category.displayName = c.category.displayName
        rw [runControl_category])
    rw [h]
    decide

/-- C3: on every input the composite risk score is an integer in [0, 100]:
the running penalty total is clamped, so any input whose raw total exceeds
100 scores exactly 100. -/
theorem composite_score_clamped (cfg : ScoreConfig) (b : EvidenceBundle)
    (hist : List AuditRecord) :
    0 ≤ (audit cfg b hist).composite_risk_score ∧
    (audit cfg b hist).composite_risk_score ≤ 100 ∧
    (100 < rawRiskTotal cfg (audit cfg b hist).checks →
      (audit cfg b hist).composite_risk_score = 100) := by
  refine ⟨Nat.zero_le _, ?_, ?_⟩
  · show min (rawRiskTotal cfg (registry.map (runControl b hist))) 100 ≤ 100
    exact Nat.min_le_right _ _
  · intro h
    show min (rawRiskTotal cfg (registry.map (runControl b hist))) 100 = 100
    exact Nat.min_eq_right (Nat.le_of_lt h)

/-- C3 witness: a bundle with three statutory fails, two forensic warnings
and 21 missing controls reaches a raw total of 133 > 100 and scores
exactly 100. -/
theorem composite_score_clamped_witness :
    100 < rawRiskTotal defaultScoreConfig
        (audit defaultScoreConfig overBundle []).checks ∧
    (audit defaultScoreConfig overBundle []).composite_risk_score = 100 :=
  ⟨by decide,
   (composite_score_clamped defaultScoreConfig overBundle []).2.2 (by decide)⟩

/-- C4: the displayed risk band is "low" iff the score is below 40, "medium"
iff it is between 40 and 69 inclusive, and "high" iff it is 70 or above. -/
theorem risk_band_boundaries (s : Nat) :
    (riskClass s = "low" ↔ s < 40) ∧
    (riskClass s = "medium" ↔ 40 ≤ s ∧ s ≤ 69) ∧
    (riskClass s = "high" ↔ 70 ≤ s) := by
  unfold riskClass
  split_ifs with h1 h2
  · exact ⟨⟨fun h => absurd h (by decide), fun h => absurd h (by omega)⟩,
      ⟨fun h => absurd h (by decide), fun h => absurd h1 (by omega)⟩,
      ⟨fun _ => h1, fun _ => rfl⟩⟩
  · exact ⟨⟨fun h => absurd h (by decide), fun h => absurd h (by omega)⟩,
      ⟨fun _ => by omega, fun _ => rfl⟩,
      ⟨fun h => absurd h (by decide), fun h => absurd h (by omega)⟩⟩
  · exact ⟨⟨fun _ => by omega, fun _ => rfl⟩,
      ⟨fun h => absurd h (by decide), fun h => absurd h (by omega)⟩,
      ⟨fun h => absurd h (by decide), fun h => absurd h (by omega)⟩⟩

/-- C4 witness: score 0 is displayed as the low band. -/
theorem risk_band_boundaries_witness :
    riskClass 0 = "low" ↔ (0 : Nat) < 40 :=
  (risk_band_boundaries 0).1

/-- C5 (divergence record): in `frontend/src/App.jsx`, submitting with all
optional fields blank sends `gstin`, `hsn_or_sac` and `claimed_tax_rate` as
present empty-string form values, while the revised App component omits
them from the request. -/
theorem blank_fields_sent_as_empty_strings :
    legacyFormData "invoice.pdf" "" "" "" =
      [("file", "invoice.pdf"), ("gstin", ""), ("hsn_or_sac", ""),
       ("claimed_tax_rate", "")] ∧
    ("gstin", "") ∈ legacyFormData "invoice.pdf" "" "" "" ∧
    currentFormData "invoice.pdf" "" "" "" = [("file", "invoice.pdf")] := by
  refine ⟨rfl, by decide, by decide⟩

/-- C6: the GSTIN control passes a known-valid 15-character GSTIN whose
checksum character matches the deterministic checksum over the first 14
characters, fails it when only the checksum character is flipped, and fails
every string that is not exactly 15 characters (total, no crash). -/
theorem gstin_validator_behavior :
    validate_gstin "27ABCDE1234F1Z0" = true ∧
    (gstinCheck (gstinBundle "27ABCDE1234F1Z0")).status = CheckStatus.pass ∧
    validate_gstin "27ABCDE1234F1Z5" = false ∧
    (gstinCheck (gstinBundle "27ABCDE1234F1Z5")).status = CheckStatus.fail ∧
    (∀ s : String, s.length ≠ 15 → validate_gstin s = false ∧
      (gstinCheck (gstinBundle s)).status = CheckStatus.fail) := by
  refine ⟨by decide, by decide, by decide, by decide, ?_⟩
  intro s hs
  have hlen : s.data.length ≠ 15 := hs
  have hv : validate_gstin s = false := by
    unfold validate_gstin
    rw [if_neg hlen]
  refine ⟨hv, ?_⟩
  show (gstinCheck (gstinBundle s)).status = CheckStatus.fail
  unfold gstinCheck gstinBundle
  simp [hv]

/-- C6 witness: the 14-character prefix string itself fails format
validation and yields a `fail` control status. -/
theorem gstin_validator_behavior_witness :
    validate_gstin "27ABCDE1234F1Z" = false ∧
    (gstinCheck (gstinBundle "27ABCDE1234F1Z")).status = CheckStatus.fail :=
  gstin_validator_behavior.2.2.2.2 "27ABCDE1234F1Z" (by decide)

/-- C7: HSN/SAC validation — a code absent from the Reference Master yields
`data_missing` regardless of the declared rate; a present code with a
declared rate equal to the expected rate (tolerance 0) passes; a present
code with an unequal declared rate fails with both values in the details;
a present code with no declared rate yields `data_missing`. -/
theorem hsn_reference_master_policy (lookup : String → Option ℚ)
    (code : String) (declared : Option ℚ) :
    (lookup code = none →
      (validate_hsn_or_sac lookup code declared).status = CheckStatus.dataMissing) ∧
    (∀ r : ℚ, lookup code = some r →
      (declared = some r →
        (validate_hsn_or_sac lookup code declared).status = CheckStatus.pass) ∧
      (∀ d : ℚ, declared = some d → d ≠ r →
        (validate_hsn_or_sac lookup code declared).status = CheckStatus.fail ∧
        (validate_hsn_or_sac lookup code declared).details =
          some (Details.rateMismatch r d)) ∧
      (declared = none →
        (validate_hsn_or_sac lookup code declared).status = CheckStatus.dataMissing)) := by
  constructor
  · intro hnone
    unfold validate_hsn_or_sac
    rw [hnone]
  · intro r hsome
    refine ⟨?_, ?_, ?_⟩
    · intro hd
      simp [validate_hsn_or_sac, hsome, hd, passOutcome]
    · intro d hd hne
      refine ⟨?_, ?_⟩ <;> simp [validate_hsn_or_sac, hsome, hd, hne]
    · intro hd
      simp [validate_hsn_or_sac, hsome, hd]

/-- C7 witness: against the concrete Reference Master — an unknown code is
`data_missing`, code 9983 with declared rate 18 passes, with declared rate 5
fails carrying expected 18 vs declared 5, and with no declared rate is
`data_missing`. -/
theorem hsn_reference_master_policy_witness :
    (validate_hsn_or_sac refLookup "0000" (some 18)).status = CheckStatus.dataMissing ∧
    (validate_hsn_or_sac refLookup "9983" (some 18)).status = CheckStatus.pass ∧
    (validate_hsn_or_sac refLookup "9983" (some 5)).status = CheckStatus.fail ∧
    (validate_hsn_or_sac refLookup "9983" (some 5)).details =
      some (Details.rateMismatch 18 5) ∧
    (validate_hsn_or_sac refLookup "9983" none).status = CheckStatus.dataMissing := by
  have h1 := (hsn_reference_master_policy refLookup "0000" (some 18)).1 (by decide)
  have h2 := ((hsn_reference_master_policy refLookup "9983" (some 18)).2 18
    (by decide)).1 rfl
  have h3 := (((hsn_reference_master_policy refLookup "9983" (some 5)).2 18
    (by decide)).2.1 5 rfl (by decide))
  have h4 := ((hsn_reference_master_policy refLookup "9983" none).2 18
    (by decide)).2.2 rfl
  exact ⟨h1, h2, h3.1, h3.2, h4⟩

/-- C8: with no file selected, the audit action of both App revisions sends
no request and only sets the error message "Please upload a file before
auditing.", leaving every other piece of client state (including any
previously displayed result) unchanged. -/
theorem no_file_guard (s : ClientState) (hfile : s.file = none) :
    runAuditLegacy s = ({ s with error := noFileError }, none) ∧
    runAuditCurrent s = ({ s with error := noFileError }, none) := by
  unfold runAuditLegacy runAuditCurrent
  rw [hfile]
  exact ⟨rfl, rfl⟩

/-- C8 witness: a concrete no-file state with a previously displayed result
keeps that result and gains only the error message. -/
theorem no_file_guard_witness :
    runAuditLegacy sampleNoFileState =
      ({ sampleNoFileState with error := noFileError }, none) ∧
    runAuditCurrent sampleNoFileState =
      ({ sampleNoFileState with error := noFileError }, none) :=
  no_file_guard sampleNoFileState rfl

/-- C9: two orchestrator runs on an identical Evidence Bundle against the
same History Store snapshot produce identical checks lists and identical
composite scores, and the score is the deterministic pure function
`scoreFromStatuses` of the Control Result statuses alone. -/
theorem audit_deterministic (cfg : ScoreConfig) (b₁ b₂ : EvidenceBundle)
    (hist : List AuditRecord) (hb : b₁ = b₂) :
    (audit cfg b₁ hist).checks = (audit cfg b₂ hist).checks ∧
    (audit cfg b₁ hist).composite_risk_score =
      (audit cfg b₂ hist).composite_risk_score ∧
    (audit cfg b₁ hist).composite_risk_score =
      scoreFromStatuses cfg ((audit cfg b₁ hist).checks.map (fun r => r.status)) := by
  subst hb
  refine ⟨rfl, rfl, ?_⟩
  show compositeScore cfg (registry.map (runControl b₁ hist)) =
    scoreFromStatuses cfg ((registry.map (runControl b₁ hist)).map (fun r => r.status))
  unfold compositeScore rawRiskTotal scoreFromStatuses
  rw [penalty_zip]

/-- C9 witness: the two runs on the empty bundle coincide and the score is
recovered from the statuses alone. -/
theorem audit_deterministic_witness :
    (audit defaultScoreConfig emptyBundle []).checks =
      (audit defaultScoreConfig emptyBundle []).checks ∧
    (audit defaultScoreConfig emptyBundle []).composite_risk_score =
      (audit defaultScoreConfig emptyBundle []).composite_risk_score ∧
    (audit defaultScoreConfig emptyBundle []).composite_risk_score =
      scoreFromStatuses defaultScoreConfig
        ((audit defaultScoreConfig emptyBundle []).checks.map (fun r => r.status)) :=
  audit_deterministic defaultScoreConfig emptyBundle emptyBundle [] rfl

/-- C10: scorecard category filtering — selecting "all" displays exactly the
checks list unchanged; every selection displays an order-preserving
subsequence of the checks list; and for a category selection, an entry is
displayed iff it is an entry of the checks list with that serialized
category (no reordering, duplication, or fabrication). -/
theorem scorecard_filter_subsequence (checks : List ControlResult)
    (cat : String) :
    filteredChecks checks "all" = checks ∧
    List.Sublist (filteredChecks checks cat) checks ∧
    (cat ≠ "all" → ∀ c : ControlResult,
      c ∈ filteredChecks checks cat ↔
        c ∈ checks ∧ c.category.displayName = cat) := by
  refine ⟨by simp [filteredChecks], ?_, ?_⟩
  · unfold filteredChecks
    split
    · exact List.Sublist.refl checks
    · exact List.filter_sublist checks
  · intro hcat c
    have hne : ¬ ((cat == "all") = true) := by simpa using hcat
    unfold filteredChecks
    rw [if_neg hne]
    simp [List.mem_filter]

/-- C10 witness: filtering the empty-bundle run's checks by "Statutory
Validation" displays exactly its statutory entries, and the membership
characterization holds at the control recorded at position 4. -/
theorem scorecard_filter_subsequence_witness :
    sampleChecks.getD 4 default ∈
        filteredChecks sampleChecks "Statutory Validation" ↔
      sampleChecks.getD 4 default ∈ sampleChecks ∧
        (sampleChecks.getD 4 default).category.displayName =
          "Statutory Validation" :=
  (scorecard_filter_subsequence sampleChecks "Statutory Validation").2.2
    (by decide) (sampleChecks.getD 4 default)

end AuditLens
